import Mathlib

/-!
# Verification of the UPC product-lookup coordination pipeline

A shallow embedding of `src/upc-product-lookup/app.py`: the job coordinator
(`process_upc`, `process_upc_background`, `process_batch`), the read path
(`get_product`), the image pipeline (`save_product_images`) and the best-image
selector (`get_best_image_with_gemini`).

External collaborators (the HTTP stack, Redis, the UPCItemDB service, the
filesystem, the Gemini ranking service, and Python stdlib helpers such as
`urlparse`/`os.path.splitext`/`urljoin`) are modelled as explicit environment
parameters: deterministic functions describing what each external call would
return during the run under consideration.  Serialized cache payloads are
modelled by `CacheValue`: `json.dumps` of a formatted record round-trips
(`.valid r`), anything that fails `json.loads` is `.corrupt`.
-/

/-- Python `str.isdigit()`: true iff the string is non-empty and every
character is a digit (stated over the underlying character list). -/
def isdigit (s : String) : Bool := !s.data.isEmpty && s.data.all Char.isDigit

/-- Python whitespace as removed by `str.strip()`. -/
def isPySpace (c : Char) : Bool :=
  c = ' ' || c = '\t' || c = '\n' || c = '\r' || c = '\x0b' || c = '\x0c'

/-- Python `str.strip()` on the character list: drop whitespace at both ends. -/
def pyStrip (l : List Char) : List Char :=
  ((l.dropWhile isPySpace).reverse.dropWhile isPySpace).reverse

/-- The numeric value of a digit string (most significant first). -/
def digitsToNat (l : List Char) : Nat :=
  l.foldl (fun n c => 10 * n + (c.toNat - 48)) 0

/-- Python `int(s)` on an already stripped string: an optional sign followed
by at least one digit; anything else raises `ValueError` (`none`). -/
def pyInt (l : List Char) : Option Int :=
  match l with
  | [] => none
  | '-' :: rest =>
    if !rest.isEmpty && rest.all Char.isDigit then some (-(digitsToNat rest : Int))
    else none
  | '+' :: rest =>
    if !rest.isEmpty && rest.all Char.isDigit then some (digitsToNat rest : Int)
    else none
  | _ =>
    if l.all Char.isDigit then some (digitsToNat l : Int) else none

/-- The cache key `f'upc:{upc}'` used by all endpoints. -/
def cacheKey (upc : String) : String := "upc:" ++ upc

/-- The record `items[0]` of a UPCItemDB response: the fields the formatter reads
(`item.get('title','')` etc.; absent keys are modelled as `""`/`[]`). -/
structure Item where
  title : String
  brand : String
  description : String
  images : List String
deriving DecidableEq, Repr

/-- A parsed UPCItemDB JSON response body; only `items` is consumed. -/
structure ProductData where
  items : List Item
deriving DecidableEq, Repr

/-- The dictionary composed by `format_product_data` and stored in the cache. -/
structure FormattedResult where
  upc : String
  title : String
  brand : String
  description : String
  images : List String
  best_image : Option String
  cached : Bool
deriving DecidableEq, Repr

/-- A stored cache payload: `valid r` is `json.dumps(r)` (which `json.loads`
recovers), `corrupt` is any payload on which `json.loads` raises. -/
inductive CacheValue where
  | valid (r : FormattedResult)
  | corrupt
deriving DecidableEq, Repr

/-- A Redis entry written by `setex`: the payload plus the TTL in days
(`timedelta(days=CACHE_EXPIRY_DAYS)`). -/
structure CacheEntry where
  value : CacheValue
  ttlDays : Nat
deriving DecidableEq, Repr

/-- The shared mutable state of the process: the Redis cache (`None` =
absent key) and the in-memory `processing_upcs` set. -/
structure CoordState where
  cache : String → Option CacheEntry
  inflight : Finset String

/-- What `requests.get(url)` followed by `Image.open`/`verify` yields for one
image URL: a network/HTTP error (`raise_for_status` or the request raising),
bytes that are not a decodable image (`UnidentifiedImageError`), or a valid
image. -/
inductive FetchResult where
  | netError
  | notImage
  | okImage
deriving DecidableEq, Repr

/-- External collaborators of `save_product_images`:
`urlExt url` is `os.path.splitext(urlparse(url).path)[1]`,
`fileNonEmpty p` is `p.exists() and os.path.getsize(p) > 0`,
`download url` is what the network returns for `url` during this run. -/
structure ImgEnv where
  urlExt : String → String
  fileNonEmpty : String → Bool
  download : String → FetchResult

/-- The deterministic destination path `static/upc_images/{upc}/{upc}_{i}{ext}`
with `ext = splitext(urlparse(url).path)[1] or '.jpg'`. -/
def image_filepath (urlExt : String → String) (upc : String) (i : Nat)
    (url : String) : String :=
  let ext := if urlExt url = "" then ".jpg" else urlExt url
  "static/upc_images/" ++ upc ++ "/" ++ upc ++ "_" ++ toString i ++ ext

/-- Result of `save_product_images`: the returned `saved_paths`, plus the list
of URLs for which a network download was attempted (the URLs reaching
`requests.get`). -/
structure SaveResult where
  saved : List String
  downloads : List String
deriving DecidableEq, Repr

/-- The `for i, url in enumerate(image_urls, 1)` loop of
`save_product_images`, starting at index `i`.  An existing non-empty file is
appended without network I/O; otherwise the URL is downloaded, and appended
only if the bytes verify as an image; network errors skip the URL. -/
def save_loop (env : ImgEnv) (upc : String) : Nat → List String → SaveResult
  | _, [] => ⟨[], []⟩
  | i, url :: rest =>
    let fp := image_filepath env.urlExt upc i url
    let r := save_loop env upc (i + 1) rest
    if env.fileNonEmpty fp then ⟨fp :: r.saved, r.downloads⟩
    else
      match env.download url with
      | .netError => ⟨r.saved, url :: r.downloads⟩
      | .notImage => ⟨r.saved, url :: r.downloads⟩
      | .okImage  => ⟨fp :: r.saved, url :: r.downloads⟩

/-- The function `save_product_images(upc, image_urls)`: returns `[]` for an empty URL
list, otherwise runs the loop with 1-based enumeration. -/
def save_product_images (env : ImgEnv) (upc : String)
    (image_urls : List String) : SaveResult :=
  if image_urls = [] then ⟨[], []⟩ else save_loop env upc 1 image_urls

/-- The outcome of the Gemini call in `get_best_image_with_gemini`: an
exception anywhere in the `try` block (client init, `generate_content`,
transport), or a reply whose `response.text` is the given string. -/
inductive GeminiOutcome where
  | exn
  | reply (text : String)
deriving DecidableEq, Repr

/-- The selector `get_best_image_with_gemini(image_paths, title, brand)`
(title/brand only
shape the prompt, not the control flow).  `apiKey` is whether
`GEMINI_API_KEY` is configured; `openable p` is whether `Image.open(p)`
succeeds; `out` is the service outcome.  Returns the chosen path or `none`. -/
def get_best_image_with_gemini (apiKey : Bool) (openable : String → Bool)
    (out : GeminiOutcome) (image_paths : List String) : Option String :=
  if apiKey = false ∨ image_paths = [] then none
  else
    match out with
    | .exn => none
    | .reply text =>
      let valid_paths := image_paths.filter openable
      if valid_paths = [] then none
      else if text = "" then none
      else
        let result_text := pyStrip text.data
        match pyInt result_text with
        | none => none
        | some choice =>
          if choice = 0 then none
          else
            let idx := choice - 1
            if 0 ≤ idx ∧ idx < (valid_paths.length : Int) then
              valid_paths.get? idx.toNat
            else none

/-- The full external environment of one background job run: the image
pipeline collaborators, the Gemini collaborators, `BASE_URL` and the stdlib
`urljoin`, the result of `get_product_from_upcitemdb(upc)` (`none` both for a
request exception and a JSON decode error), whether an unexpected exception
is raised inside the job's `try` block before the cache write completes, and
`CACHE_EXPIRY_DAYS`. -/
structure Env where
  img : ImgEnv
  geminiKey : Bool
  openable : String → Bool
  gemini : GeminiOutcome
  baseUrl : String
  urljoin : String → String → String
  lookup : Option ProductData
  exn : Bool
  cacheExpiryDays : Nat

/-- Public URL of a stored path: `str(path).replace('\\', '/')` followed by
`urljoin(base_url, path)`. -/
def toPublicUrl (env : Env) (p : String) : String :=
  env.urljoin env.baseUrl (p.replace "\\" "/")

/-- The formatter `format_product_data(upc, data, from_cache)`: `None` when `data` is
falsy, lacks `items`, or `items` is empty; otherwise composes the result
dictionary from `items[0]`.  When the data is fresh (`not from_cache`) and
there are image URLs, it stores the images, rewrites `item['images']` to the
public URLs of the saved paths when any were saved, and asks Gemini for the
best of the saved paths. -/
def format_product_data (env : Env) (upc : String) (data : Option ProductData)
    (from_cache : Bool) : Option FormattedResult :=
  match data with
  | none => none
  | some d =>
    match d.items with
    | [] => none
    | item :: _ =>
      let image_urls := item.images
      if from_cache = false ∧ image_urls ≠ [] then
        let saved_paths := (save_product_images env.img upc image_urls).saved
        if saved_paths ≠ [] then
          let best_disk :=
            get_best_image_with_gemini env.geminiKey env.openable env.gemini
              saved_paths
          some { upc := upc, title := item.title, brand := item.brand,
                 description := item.description,
                 images := saved_paths.map (toPublicUrl env),
                 best_image := best_disk.map (toPublicUrl env),
                 cached := from_cache }
        else
          some { upc := upc, title := item.title, brand := item.brand,
                 description := item.description, images := image_urls,
                 best_image := none, cached := from_cache }
      else
        some { upc := upc, title := item.title, brand := item.brand,
               description := item.description, images := image_urls,
               best_image := none, cached := from_cache }

/-- Functional update of the cache at one key. -/
def cacheSet (c : String → Option CacheEntry) (k : String)
    (v : Option CacheEntry) : String → Option CacheEntry :=
  fun k' => if k' = k then v else c k'

/-- The job `process_upc_background(upc)`: the `try` block looks the UPC up, formats
the data when items are present and, when formatting yields a result, writes
it to the cache with `setex` and the configured TTL.  Any exception is caught
and logged.  The `finally` block removes the UPC from `processing_upcs`
(guarded by membership, which `Finset.erase` captures). -/
def process_upc_background (env : Env) (upc : String) (st : CoordState) :
    CoordState :=
  let st1 :=
    if env.exn then st
    else
      match env.lookup with
      | none => st
      | some d =>
        if d.items ≠ [] then
          match format_product_data env upc (some d) false with
          | some formatted =>
            { st with
              cache := cacheSet st.cache (cacheKey upc)
                (some ⟨.valid formatted, env.cacheExpiryDays⟩) }
          | none => st
        else st
  { st1 with inflight := st1.inflight.erase upc }

/-- A JSON body returned by an endpoint: an `error` message, a `status`
string, or a product record. -/
inductive Body where
  | err (msg : String)
  | status (s : String)
  | product (r : FormattedResult)
deriving DecidableEq, Repr

/-- The observable outcome of one endpoint call: HTTP status code, body, the
coordinator state afterwards, and the UPCs for which a background `Thread`
was started during the call. -/
structure EndpointResult where
  httpCode : Nat
  body : Body
  state : CoordState
  spawned : List String

/-- Endpoint `GET /api/product/<upc>` (`get_product`): cache-only read.  Invalid UPC →
400; absent key → 404; stored payload that parses → 200 with the record;
payload on which `json.loads` raises → the entry is deleted and 500
`Invalid cache data` is returned. -/
def get_product (upc : String) (st : CoordState) : EndpointResult :=
  if upc.data.isEmpty || !isdigit upc then ⟨400, .err "Invalid UPC format", st, []⟩
  else
    match st.cache (cacheKey upc) with
    | none => ⟨404, .err "Product not found in cache", st, []⟩
    | some entry =>
      match entry.value with
      | .valid r => ⟨200, .product r, st, []⟩
      | .corrupt =>
        ⟨500, .err "Invalid cache data",
          { st with cache := cacheSet st.cache (cacheKey upc) none }, []⟩

/-- Endpoint `POST /api/process/<upc>` (`process_upc`): invalid UPC → 400; live cache
entry → 200 `already_cached`; UPC already in `processing_upcs` → 202
`processing`; otherwise the UPC is added to `processing_upcs`, a background
thread is started for it, and 202 `processing_started` is returned. -/
def process_upc (upc : String) (st : CoordState) : EndpointResult :=
  if upc.data.isEmpty || !isdigit upc then ⟨400, .err "Invalid UPC", st, []⟩
  else if (st.cache (cacheKey upc)).isSome then
    ⟨200, .status "already_cached", st, []⟩
  else if upc ∈ st.inflight then ⟨202, .status "processing", st, []⟩
  else
    ⟨202, .status "processing_started",
      { st with inflight := insert upc st.inflight }, [upc]⟩

/-- Model of `pandas.Series.unique` on the stringified `upc` column: the distinct
values in first-occurrence order.  `seen` accumulates the values already
emitted. -/
def unique_first_aux (seen : List String) : List String → List String
  | [] => []
  | a :: l =>
    if a ∈ seen then unique_first_aux seen l
    else a :: unique_first_aux (a :: seen) l

/-- Model of `df['upc'].astype(str).unique()`: first-occurrence deduplication. -/
def unique_first (l : List String) : List String := unique_first_aux [] l

/-- The per-UPC filter of `process_batch`: not cached (`redis exists`), not in
`processing_upcs`, and `upc.isdigit()`. -/
def shouldQueue (st : CoordState) (upc : String) : Bool :=
  !(st.cache (cacheKey upc)).isSome && !decide (upc ∈ st.inflight)
    && isdigit upc

/-- The JSON counts returned by `process_batch`, the resulting state, and the
UPCs for which a background thread was started. -/
structure BatchResult where
  httpCode : Nat
  total_upcs_in_file : Nat
  upcs_queued : Nat
  upcs_ignored_cached : Nat
  state : CoordState
  spawned : List String

/-- Endpoint `POST /api/process/batch` (`process_batch`) from the point where the
`upc` column has been read and stringified into `rows` (the file-shape 400
checks and the pandas read happen before this).  Deduplicates the rows,
keeps the UPCs that are uncached, not in flight and all-digit, marks each in
`processing_upcs` and starts a thread for it, and reports
`total_upcs_in_file = len(unique_upcs)`, `upcs_queued = len(upcs_to_process)`
and their difference. -/
def process_batch (rows : List String) (st : CoordState) : BatchResult :=
  let unique_upcs := unique_first rows
  let upcs_to_process := unique_upcs.filter (shouldQueue st)
  { httpCode := 202
    total_upcs_in_file := unique_upcs.length
    upcs_queued := upcs_to_process.length
    upcs_ignored_cached := unique_upcs.length - upcs_to_process.length
    state := { st with
      inflight := upcs_to_process.foldl (fun s u => insert u s) st.inflight }
    spawned := upcs_to_process }

/-! ## Concrete fixtures for witnesses and counterexamples -/

/-- A state with an empty cache and no in-flight key. -/
def emptyState : CoordState := ⟨fun _ => none, ∅⟩

/-- A state in which UPC `77` is currently in flight and nothing is cached. -/
def inflight77 : CoordState := ⟨fun _ => none, {"77"}⟩

/-- A well-formed cached record for UPC `002`. -/
def exampleRecord : FormattedResult := ⟨"002", "", "", "", [], none, false⟩

/-- A state in which `upc:002` holds a valid cached record. -/
def cachedState : CoordState :=
  ⟨fun k => if k = "upc:002" then some ⟨.valid exampleRecord, 30⟩ else none, ∅⟩

/-- A state in which `upc:77` holds a payload that `json.loads` rejects. -/
def corruptState : CoordState :=
  ⟨fun k => if k = "upc:77" then some ⟨.corrupt, 30⟩ else none, ∅⟩

/-- An environment whose lookup succeeds for one item with no image URLs. -/
def simpleEnv : Env :=
  { img := ⟨fun _ => "", fun _ => false, fun _ => .netError⟩
    geminiKey := false
    openable := fun _ => false
    gemini := .exn
    baseUrl := "http://localhost:5000"
    urljoin := fun b p => b ++ "/" ++ p
    lookup := some ⟨[⟨"Widget", "Acme", "A widget", []⟩]⟩
    exn := false
    cacheExpiryDays := 30 }

/-- An environment whose lookup fails (request or JSON decode error). -/
def failEnv : Env := { simpleEnv with lookup := none }

/-- Image collaborators for a machine on which every destination file already
exists with content. -/
def presentImgEnv : ImgEnv := ⟨fun _ => "", fun _ => true, fun _ => .okImage⟩

/-- Image collaborators for a first run: no file exists yet, every download
yields a valid image. -/
def freshImgEnv : ImgEnv := ⟨fun _ => "", fun _ => false, fun _ => .okImage⟩

/-! ## Theorems -/

/-- A valid UPC is non-empty. -/
lemma isdigit_ne_empty {s : String} (h : isdigit s = true) : s.data.isEmpty = false := by
  unfold isdigit at h
  rcases Bool.and_eq_true _ _ |>.mp h with ⟨h1, _⟩
  simpa using h1

/-- C1: for a valid key that has no live cache entry and is already in the
in-flight set, `process_upc` answers 202 `processing` (the spec's
`already_processing` outcome), leaves the state untouched (the key is not
inserted again) and starts no background thread. -/
theorem process_upc_single_flight (upc : String) (st : CoordState)
    (hvalid : isdigit upc = true)
    (hmiss : st.cache (cacheKey upc) = none)
    (hin : upc ∈ st.inflight) :
    process_upc upc st = ⟨202, .status "processing", st, []⟩ := by
  unfold process_upc
  simp [isdigit_ne_empty hvalid, hvalid, hmiss, hin]

/-- Witness for C1: UPC `77` in flight, cache empty. -/
theorem process_upc_single_flight_witness :
    process_upc "77" inflight77 = ⟨202, .status "processing", inflight77, []⟩ :=
  process_upc_single_flight "77" inflight77 (by decide) rfl (by decide)

/-- C8: for a valid key with a live cache entry, `process_upc` answers 200
`already_cached`, returns the state unchanged (in-flight set untouched) and
starts no background thread, hence triggers no network call. -/
theorem process_upc_cached_idempotent (upc : String) (st : CoordState)
    (entry : CacheEntry) (hvalid : isdigit upc = true)
    (hhit : st.cache (cacheKey upc) = some entry) :
    process_upc upc st = ⟨200, .status "already_cached", st, []⟩ := by
  unfold process_upc
  simp [isdigit_ne_empty hvalid, hvalid, hhit]

/-- Witness for C8: UPC `002` with a live cache entry. -/
theorem process_upc_cached_idempotent_witness :
    process_upc "002" cachedState = ⟨200, .status "already_cached", cachedState, []⟩ :=
  process_upc_cached_idempotent "002" cachedState ⟨.valid exampleRecord, 30⟩
    (by decide) (by decide)

/-- C2: whatever the environment does — lookup success, lookup failure, empty
items, or an unexpected exception inside the `try` block — the background job
ends with its key absent from the in-flight set (the `finally` block). -/
theorem background_job_clears_inflight (env : Env) (upc : String)
    (st : CoordState) :
    upc ∉ (process_upc_background env upc st).inflight := by
  unfold process_upc_background
  simp

/-- Witness for C2: a job for key `77` starting from a state where `77` is in
flight leaves it out of the set. -/
theorem background_job_clears_inflight_witness :
    "77" ∉ (process_upc_background simpleEnv "77" inflight77).inflight :=
  background_job_clears_inflight simpleEnv "77" inflight77

/-- C3: starting from a state with no entry for the key, a background job
whose pipeline fails — unexpected exception, lookup error, lookup with no
items, or formatting yielding no result — leaves the cache entry for
`upc:<key>` absent; and conversely any entry present after the job is a
valid serialized record written with the configured TTL on a successful
pipeline. -/
theorem job_failure_writes_nothing (env : Env) (upc : String) (st : CoordState)
    (hmiss : st.cache (cacheKey upc) = none) :
    ((env.exn = true ∨ env.lookup = none ∨
        (∃ d, env.lookup = some d ∧ d.items = []) ∨
        (∃ d, env.lookup = some d ∧
          format_product_data env upc (some d) false = none)) →
      (process_upc_background env upc st).cache (cacheKey upc) = none)
    ∧ (∀ e, (process_upc_background env upc st).cache (cacheKey upc) = some e →
        env.exn = false ∧ ∃ d r, env.lookup = some d ∧ d.items ≠ [] ∧
          format_product_data env upc (some d) false = some r ∧
          e = ⟨.valid r, env.cacheExpiryDays⟩) := by
  unfold process_upc_background
  by_cases hexn : env.exn
  · simp [hexn, hmiss]
  · cases hlk : env.lookup with
    | none => simp [hexn, hmiss]
    | some d =>
      by_cases hitems : d.items = []
      · simp [hexn, hitems, hmiss]
      · cases hfmt : format_product_data env upc (some d) false with
        | none => simp [hexn, hitems, hfmt, hmiss]
        | some r =>
          constructor
          · rintro (h | h | ⟨d', hd', hd'e⟩ | ⟨d', hd', hfmt'⟩)
            · exact absurd h hexn
            · exact Option.noConfusion h
            · injection hd' with h2; subst h2; exact absurd hd'e hitems
            · injection hd' with h2; subst h2
              rw [hfmt] at hfmt'; exact Option.noConfusion hfmt'
          · intro e he
            have h2 : (⟨CacheValue.valid r, env.cacheExpiryDays⟩ : CacheEntry)
                = e := by
              simpa [hexn, hitems, hfmt, cacheSet] using he
            exact ⟨by simpa using hexn, d, r, rfl, hitems, hfmt, h2.symm⟩

/-- Witness for C3: a job whose lookup fails leaves the cache empty for its
key. -/
theorem job_failure_writes_nothing_witness :
    (process_upc_background failEnv "77" emptyState).cache (cacheKey "77")
      = none :=
  (job_failure_writes_nothing failEnv "77" emptyState rfl).1
    (Or.inr (Or.inl rfl))

/-- C4 counterexample: reading UPC `77` whose stored payload is corrupt
returns HTTP 500 with the distinct error `Invalid cache data`, not the 404
`NotFound` answer the claim requires. -/
theorem corrupt_read_is_500_not_notfound :
    (get_product "77" corruptState).httpCode = 500
    ∧ (get_product "77" corruptState).httpCode ≠ 404
    ∧ (get_product "77" corruptState).body = .err "Invalid cache data"
    ∧ (get_product "77" corruptState).body ≠ .err "Product not found in cache"
    := by
  refine ⟨by decide, by decide, by decide, by decide⟩

/-- C4 (amended): on a corrupt payload `get_product` evicts the entry and
returns the distinct error 500 `Invalid cache data`; the entry is absent
afterwards, so a subsequent read answers 404 `Product not found in cache`. -/
theorem corrupt_read_evicts_entry (upc : String) (st : CoordState)
    (e : CacheEntry) (hvalid : isdigit upc = true)
    (hhit : st.cache (cacheKey upc) = some e) (hcorrupt : e.value = .corrupt) :
    (get_product upc st).httpCode = 500
    ∧ (get_product upc st).body = .err "Invalid cache data"
    ∧ (get_product upc st).state.cache (cacheKey upc) = none
    ∧ (get_product upc (get_product upc st).state).httpCode = 404
    ∧ (get_product upc (get_product upc st).state).body
        = .err "Product not found in cache" := by
  obtain ⟨v, ttl⟩ := e
  cases hcorrupt
  unfold get_product
  simp [isdigit_ne_empty hvalid, hvalid, hhit, cacheSet]

/-- Witness for the amended C4: the corrupt entry for UPC `77`. -/
theorem corrupt_read_evicts_entry_witness :
    (get_product "77" corruptState).httpCode = 500
    ∧ (get_product "77" corruptState).body = .err "Invalid cache data"
    ∧ (get_product "77" corruptState).state.cache (cacheKey "77") = none
    ∧ (get_product "77" (get_product "77" corruptState).state).httpCode = 404
    ∧ (get_product "77" (get_product "77" corruptState).state).body
        = .err "Product not found in cache" :=
  corrupt_read_evicts_entry "77" corruptState ⟨.corrupt, 30⟩ (by decide)
    (by decide) rfl

/-- Reduction of the selector on a non-empty path list, all of whose paths
open, for a non-empty reply text: the answer is determined by parsing the
stripped text as an integer. -/
lemma gemini_reply_reduce (paths : List String) (hne : paths ≠ [])
    (s : String) (hs : s ≠ "") :
    get_best_image_with_gemini true (fun _ => true) (.reply s) paths =
      (match pyInt (pyStrip s.data) with
       | none => none
       | some choice =>
         if choice = 0 then none
         else if 0 ≤ choice - 1 ∧ choice - 1 < (paths.length : Int) then
           paths.get? (choice - 1).toNat
         else none) := by
  unfold get_best_image_with_gemini
  simp [hne, hs, List.filter_true]

/-- C5: for every non-empty list of supplied (readable) images with the model
configured, the selector strips and integer-parses the ranking reply; a
non-integer reply gives `none`, `0` gives `none`, an in-range `k` (1-based)
gives the `k`-th supplied image, an out-of-range integer gives `none`, and a
transport/service error gives `none`. -/
theorem gemini_response_parsing (paths : List String) (hne : paths ≠ []) :
    (∀ s, pyInt (pyStrip s.data) = none →
        get_best_image_with_gemini true (fun _ => true) (.reply s) paths
          = none)
    ∧ (∀ s, pyInt (pyStrip s.data) = some 0 →
        get_best_image_with_gemini true (fun _ => true) (.reply s) paths
          = none)
    ∧ (∀ s (k : Int), pyInt (pyStrip s.data) = some k → 1 ≤ k →
        k ≤ (paths.length : Int) →
        get_best_image_with_gemini true (fun _ => true) (.reply s) paths
          = paths.get? (k - 1).toNat)
    ∧ (∀ s (k : Int), pyInt (pyStrip s.data) = some k → k ≠ 0 →
        (k < 1 ∨ (paths.length : Int) < k) →
        get_best_image_with_gemini true (fun _ => true) (.reply s) paths
          = none)
    ∧ get_best_image_with_gemini true (fun _ => true) .exn paths = none := by
  have hsne : ∀ (s : String) (v : Int), pyInt (pyStrip s.data) = some v →
      s ≠ "" := by
    intro s v hv hs
    subst hs
    rw [show pyStrip ("" : String).data = [] from rfl] at hv
    exact Option.noConfusion hv
  refine ⟨?_, ?_, ?_, ?_, ?_⟩
  · intro s hp
    by_cases hs : s = ""
    · subst hs
      unfold get_best_image_with_gemini
      simp [hne, List.filter_true]
    · rw [gemini_reply_reduce paths hne s hs, hp]
  · intro s hp
    rw [gemini_reply_reduce paths hne s (hsne s 0 hp), hp]
    simp
  · intro s k hp hk1 hk2
    rw [gemini_reply_reduce paths hne s (hsne s k hp), hp]
    have hknz : ¬(k = 0) := by omega
    have hrange : 0 ≤ k - 1 ∧ k - 1 < (paths.length : Int) := by omega
    simp [hknz, hrange]
  · intro s k hp hknz hout
    rw [gemini_reply_reduce paths hne s (hsne s k hp), hp]
    have hrange : ¬(0 ≤ k - 1 ∧ k - 1 < (paths.length : Int)) := by omega
    simp [hknz, hrange]
    omega
  · unfold get_best_image_with_gemini
    simp [hne]

/-- Witness for C5 at three supplied images: `banana` → none, `0` → none,
`3` → the third image, `5` → none, service error → none. -/
theorem gemini_response_parsing_witness :
    get_best_image_with_gemini true (fun _ => true) (.reply "banana")
        ["a", "b", "c"] = none
    ∧ get_best_image_with_gemini true (fun _ => true) (.reply "0")
        ["a", "b", "c"] = none
    ∧ get_best_image_with_gemini true (fun _ => true) (.reply "3")
        ["a", "b", "c"] = some "c"
    ∧ get_best_image_with_gemini true (fun _ => true) (.reply "5")
        ["a", "b", "c"] = none
    ∧ get_best_image_with_gemini true (fun _ => true) .exn
        ["a", "b", "c"] = none := by
  have h := gemini_response_parsing ["a", "b", "c"] (by decide)
  refine ⟨h.1 "banana" (by decide), h.2.1 "0" (by decide), ?_,
    h.2.2.2.1 "5" 5 (by decide) (by decide) (by decide), h.2.2.2.2⟩
  have h3 := h.2.2.1 "3" 3 (by decide) (by decide) (by decide)
  rw [h3]
  decide

/-- When every destination file for the enumerated URLs already exists with
content, the loop appends every derived path in order and downloads
nothing. -/
lemma save_loop_all_present (env : ImgEnv) (upc : String) (urls : List String)
    (i : Nat)
    (h : ∀ p ∈ List.enumFrom i urls,
      env.fileNonEmpty (image_filepath env.urlExt upc p.1 p.2) = true) :
    save_loop env upc i urls =
      ⟨(List.enumFrom i urls).map
        (fun p => image_filepath env.urlExt upc p.1 p.2), []⟩ := by
  induction urls generalizing i with
  | nil => rfl
  | cons u rest ih =>
    have hu := h (i, u) (by simp [List.enumFrom_cons])
    unfold save_loop
    simp only [hu, if_true]
    rw [ih (i + 1) (fun p hp => h p (by simp [List.enumFrom_cons, hp]))]
    simp [List.enumFrom_cons]

/-- On a fresh machine (no file present, every download a valid image) the
loop stores every derived path in order and downloads every URL. -/
lemma save_loop_fresh (env : ImgEnv) (upc : String) (urls : List String)
    (i : Nat)
    (hf : ∀ p, env.fileNonEmpty p = false)
    (hd : ∀ u, env.download u = .okImage) :
    save_loop env upc i urls =
      ⟨(List.enumFrom i urls).map
        (fun p => image_filepath env.urlExt upc p.1 p.2), urls⟩ := by
  induction urls generalizing i with
  | nil => rfl
  | cons u rest ih =>
    unfold save_loop
    simp only [hf, hd]
    rw [ih (i + 1)]
    simp [List.enumFrom_cons]

/-- C6: `save_product_images` is idempotent.  If for each URL position the
derived destination file already exists with non-zero size — the state a
successful first run leaves behind — the re-run downloads nothing and
returns exactly the ordered path list that a successful first run (no file
present, every download valid) returns. -/
theorem save_images_idempotent (env envFirst : ImgEnv) (upc : String)
    (urls : List String)
    (hext : envFirst.urlExt = env.urlExt)
    (hfirst_nofile : ∀ p, envFirst.fileNonEmpty p = false)
    (hfirst_dl : ∀ u, envFirst.download u = .okImage)
    (hpresent : ∀ p ∈ List.enumFrom 1 urls,
      env.fileNonEmpty (image_filepath env.urlExt upc p.1 p.2) = true) :
    (save_product_images env upc urls).downloads = []
    ∧ (save_product_images env upc urls).saved
        = (save_product_images envFirst upc urls).saved := by
  by_cases hurls : urls = []
  · subst hurls
    simp [save_product_images]
  · unfold save_product_images
    rw [if_neg hurls, if_neg hurls, save_loop_all_present env upc urls 1 hpresent,
      save_loop_fresh envFirst upc urls 1 hfirst_nofile hfirst_dl, hext]
    exact ⟨rfl, rfl⟩

/-- Witness for C6: two URLs whose destination files both exist. -/
theorem save_images_idempotent_witness :
    (save_product_images presentImgEnv "77" ["u1", "u2"]).downloads = []
    ∧ (save_product_images presentImgEnv "77" ["u1", "u2"]).saved
        = (save_product_images freshImgEnv "77" ["u1", "u2"]).saved :=
  save_images_idempotent presentImgEnv freshImgEnv "77" ["u1", "u2"] rfl
    (fun _ => rfl) (fun _ => rfl) (by decide)

/-- Membership after folding `insert` over a list, as the batch loop does. -/
lemma mem_foldl_insert (l : List String) (s : Finset String) (a : String) :
    a ∈ l.foldl (fun t u => insert u t) s ↔ a ∈ s ∨ a ∈ l := by
  induction l generalizing s with
  | nil => simp
  | cons b l ih =>
    simp only [List.foldl_cons, ih, Finset.mem_insert, List.mem_cons]
    tauto

/-- C7: the batch endpoint deduplicates before filtering.  The reported total
is the number of unique keys, the queued count is the number of unique keys
that are valid, uncached and not in flight (each of which is marked in flight
and started), the ignored count is total minus queued; and concretely,
submitting `["001", "001", "002"]` with `002` already cached reports total=2,
queued=1, ignored=1. -/
theorem batch_dedup_then_filter (rows : List String) (st : CoordState) :
    (process_batch rows st).total_upcs_in_file = (unique_first rows).length
    ∧ (process_batch rows st).upcs_queued
        = ((unique_first rows).filter (fun u =>
            !(st.cache (cacheKey u)).isSome && !decide (u ∈ st.inflight)
              && isdigit u)).length
    ∧ (process_batch rows st).upcs_ignored_cached
        = (process_batch rows st).total_upcs_in_file
            - (process_batch rows st).upcs_queued
    ∧ (process_batch rows st).spawned
        = (unique_first rows).filter (shouldQueue st)
    ∧ (∀ u, u ∈ (process_batch rows st).spawned →
        u ∈ (process_batch rows st).state.inflight)
    ∧ (process_batch ["001", "001", "002"] cachedState).total_upcs_in_file = 2
    ∧ (process_batch ["001", "001", "002"] cachedState).upcs_queued = 1
    ∧ (process_batch ["001", "001", "002"] cachedState).upcs_ignored_cached
        = 1 := by
  refine ⟨rfl, rfl, rfl, rfl, ?_, by decide, by decide, by decide⟩
  intro u hu
  simp only [process_batch, mem_foldl_insert]
  exact Or.inr hu

/-- Witness for C7 at the concrete example state. -/
theorem batch_dedup_then_filter_witness :
    (process_batch ["001", "001", "002"] cachedState).upcs_queued = 1
    ∧ (process_batch ["001", "001", "002"] cachedState).upcs_ignored_cached
        = 1 :=
  ⟨(batch_dedup_then_filter ["001", "001", "002"] cachedState).2.2.2.2.2.2.1,
   (batch_dedup_then_filter ["001", "001", "002"] cachedState).2.2.2.2.2.2.2⟩

/-- Splitting a length by a Boolean predicate, for the ignored-count
arithmetic. -/
lemma length_sub_filter (l : List String) (p : String → Bool) :
    l.length - (l.filter p).length = (l.filter (fun a => !p a)).length := by
  induction l with
  | nil => rfl
  | cons a l ih =>
    have hle := List.length_filter_le p l
    by_cases h : p a <;> simp [List.filter_cons, h] <;> omega

/-- Membership in the first-occurrence deduplication with accumulator. -/
lemma mem_unique_first_aux (l : List String) (seen : List String)
    (a : String) :
    a ∈ unique_first_aux seen l ↔ a ∈ l ∧ a ∉ seen := by
  induction l generalizing seen with
  | nil => simp [unique_first_aux]
  | cons b l ih =>
    unfold unique_first_aux
    by_cases hb : b ∈ seen
    · rw [if_pos hb, ih]
      constructor
      · exact fun ⟨h1, h2⟩ => ⟨List.mem_cons_of_mem b h1, h2⟩
      · rintro ⟨h1, h2⟩
        rcases List.mem_cons.mp h1 with h1 | h1
        · exact absurd (h1.symm ▸ hb) h2
        · exact ⟨h1, h2⟩
    · rw [if_neg hb]
      constructor
      · intro h1
        rcases List.mem_cons.mp h1 with h1 | h1
        · subst h1
          exact ⟨List.mem_cons_self a l, hb⟩
        · have h2 := (ih (b :: seen)).mp h1
          exact ⟨List.mem_cons_of_mem b h2.1,
            fun hs => h2.2 (List.mem_cons_of_mem b hs)⟩
      · rintro ⟨h1, h2⟩
        rcases List.mem_cons.mp h1 with h1 | h1
        · subst h1
          exact List.mem_cons_self a _
        · by_cases hab : a = b
          · subst hab
            exact List.mem_cons_self a _
          · exact List.mem_cons_of_mem b
              ((ih (b :: seen)).mpr
                ⟨h1, fun hs => (List.mem_cons.mp hs).elim hab h2⟩)

/-- Deduplication preserves exactly the members of the input list. -/
lemma mem_unique_first (l : List String) (a : String) :
    a ∈ unique_first l ↔ a ∈ l := by
  simp [unique_first, mem_unique_first_aux]

/-- C10: a unique key in the batch file that is not all-digit does not make
the request fail: the endpoint still answers 202, the key is neither queued
nor newly marked in flight, and it is counted among the ignored keys (the
ignored count is exactly the number of unique keys failing the
cached/in-flight/digit filter, and the invalid key is one of them). -/
theorem batch_invalid_key_ignored (rows : List String) (st : CoordState)
    (u : String) (hmem : u ∈ rows) (hinv : isdigit u = false) :
    (process_batch rows st).httpCode = 202
    ∧ u ∉ (process_batch rows st).spawned
    ∧ (u ∉ st.inflight → u ∉ (process_batch rows st).state.inflight)
    ∧ (process_batch rows st).upcs_ignored_cached
        = ((unique_first rows).filter (fun v => !shouldQueue st v)).length
    ∧ u ∈ (unique_first rows).filter (fun v => !shouldQueue st v) := by
  have hnq : shouldQueue st u = false := by
    unfold shouldQueue
    simp [hinv]
  refine ⟨rfl, ?_, ?_, ?_, ?_⟩
  · intro hu
    have := List.of_mem_filter (p := shouldQueue st) hu
    rw [hnq] at this
    exact Bool.noConfusion this
  · intro hni hu
    rw [show (process_batch rows st).state.inflight
        = ((unique_first rows).filter (shouldQueue st)).foldl
            (fun t v => insert v t) st.inflight from rfl,
      mem_foldl_insert] at hu
    rcases hu with hu | hu
    · exact hni hu
    · have := List.of_mem_filter (p := shouldQueue st) hu
      rw [hnq] at this
      exact Bool.noConfusion this
  · exact length_sub_filter (unique_first rows) (shouldQueue st)
  · exact List.mem_filter.mpr
      ⟨(mem_unique_first rows u).mpr hmem, by simp [hnq]⟩

/-- Witness for C10: the non-digit key `12AB` in a two-row file. -/
theorem batch_invalid_key_ignored_witness :
    (process_batch ["001", "12AB"] emptyState).httpCode = 202
    ∧ "12AB" ∉ (process_batch ["001", "12AB"] emptyState).spawned
    ∧ ("12AB" ∉ emptyState.inflight →
        "12AB" ∉ (process_batch ["001", "12AB"] emptyState).state.inflight)
    ∧ (process_batch ["001", "12AB"] emptyState).upcs_ignored_cached
        = ((unique_first ["001", "12AB"]).filter
            (fun v => !shouldQueue emptyState v)).length
    ∧ "12AB" ∈ (unique_first ["001", "12AB"]).filter
        (fun v => !shouldQueue emptyState v) :=
  batch_invalid_key_ignored ["001", "12AB"] emptyState "12AB" (by decide)
    (by decide)

/-- Every record composed by `format_product_data` carries in `cached`
exactly the `from_cache` argument it was composed with. -/
lemma format_product_data_cached (env : Env) (upc : String)
    (data : Option ProductData) (fc : Bool) (r : FormattedResult)
    (h : format_product_data env upc data fc = some r) : r.cached = fc := by
  unfold format_product_data at h
  split at h
  · exact Option.noConfusion h
  · split at h
    · exact Option.noConfusion h
    · dsimp only at h
      split_ifs at h <;> (injection h with h2; subst h2; rfl)

/-- Any entry present for the job's key after a job that started from a
cache miss was written by that job: a valid serialized record composed with
`from_cache = False`, stored with the configured TTL. -/
lemma job_cache_write_inv (env : Env) (upc : String) (st : CoordState)
    (hmiss : st.cache (cacheKey upc) = none) (e : CacheEntry)
    (he : (process_upc_background env upc st).cache (cacheKey upc) = some e) :
    ∃ d r, env.lookup = some d
      ∧ format_product_data env upc (some d) false = some r
      ∧ e = ⟨.valid r, env.cacheExpiryDays⟩ := by
  unfold process_upc_background at he
  by_cases hexn : env.exn
  · simp [hexn, hmiss] at he
  · cases hlk : env.lookup with
    | none => simp [hexn, hlk, hmiss] at he
    | some d =>
      by_cases hitems : d.items = []
      · simp [hexn, hlk, hitems, hmiss] at he
      · cases hfmt : format_product_data env upc (some d) false with
        | none => simp [hexn, hlk, hitems, hfmt, hmiss] at he
        | some r =>
          have h2 : (⟨CacheValue.valid r, env.cacheExpiryDays⟩ : CacheEntry)
              = e := by
            simpa [hexn, hlk, hitems, hfmt, cacheSet] using he
          exact ⟨d, r, rfl, hfmt, h2.symm⟩

/-- C9 counterexample: after a background job for UPC `77`, the read path
serves the stored record from the cache, yet its `cached` flag is `False` —
the claim that a cache-served result carries the flag set is false here. -/
theorem get_cached_flag_not_set :
    (get_product "77" (process_upc_background simpleEnv "77" emptyState)).body
      = .product ⟨"77", "Widget", "Acme", "A widget", [], none, false⟩
    ∧ ¬(∀ r, (get_product "77"
          (process_upc_background simpleEnv "77" emptyState)).body
            = .product r → r.cached = true) := by
  have h1 : (get_product "77"
      (process_upc_background simpleEnv "77" emptyState)).body
        = .product ⟨"77", "Widget", "Acme", "A widget", [], none, false⟩ := by
    decide
  refine ⟨h1, fun hclaim => ?_⟩
  have h2 := hclaim ⟨"77", "Widget", "Acme", "A widget", [], none, false⟩ h1
  exact absurd h2 (by decide)

/-- C9 (amended): the `cached` flag records whether the record was composed
from cached data at formatting time, not whether it is being served from the
cache now: jobs compose with `from_cache = False` and the read path returns
the stored payload unchanged, so any record read back after a job carries
`cached = False`. -/
theorem cache_served_record_flag_false (env : Env) (upc : String)
    (st : CoordState) (r : FormattedResult)
    (hmiss : st.cache (cacheKey upc) = none)
    (hread : (get_product upc (process_upc_background env upc st)).body
      = .product r) :
    r.cached = false := by
  unfold get_product at hread
  by_cases hval : upc.data.isEmpty || !isdigit upc
  · rw [if_pos hval] at hread
    exact Body.noConfusion hread
  · rw [if_neg hval] at hread
    rcases hc : (process_upc_background env upc st).cache (cacheKey upc)
      with _ | ⟨v, ttl⟩
    · rw [hc] at hread
      exact Body.noConfusion hread
    · rw [hc] at hread
      cases v with
      | corrupt => exact Body.noConfusion hread
      | valid r' =>
        injection hread with h2
        subst h2
        obtain ⟨d, fmt, _, hfmt, hent⟩ :=
          job_cache_write_inv env upc st hmiss ⟨.valid r', ttl⟩ hc
        injection hent with h3 h4
        injection h3 with h5
        subst h5
        exact format_product_data_cached env upc (some d) false r' hfmt

/-- Witness for the amended C9 at the concrete job of the counterexample. -/
theorem cache_served_record_flag_false_witness :
    (⟨"77", "Widget", "Acme", "A widget", [], none, false⟩
      : FormattedResult).cached = false :=
  cache_served_record_flag_false simpleEnv "77" emptyState
    ⟨"77", "Widget", "Acme", "A widget", [], none, false⟩ rfl (by decide)
